import Mathlib

/-!
Verification of the range-selector web app (`src/webapp/static/app.js`) and the
process-launcher shell script bundled in the same source file.

Numbers handled by the JavaScript code are modelled as rationals (`ℚ`); every
concrete value appearing in the claims (multiples of 0.05, bounds 0, 0.5, 60)
is exactly representable both as a binary double and as a rational, so the
model is faithful on all inputs used below.
-/

namespace RangeSelector

/-- Integer numerator of `x.toFixed(1)`: the integer `n` minimising the
distance of `n / 10` to `x`, ties resolved toward the larger `n`, exactly as
ECMAScript `Number.prototype.toFixed` specifies. -/
def fx (q : ℚ) : ℤ := ⌊q * 10 + 1/2⌋

/-- Numeric value read back (by `Number(...)`) from the string `x.toFixed(1)`
that `clampRanges` stores into a range input's `value`. -/
def tofixed1 (q : ℚ) : ℚ := (fx q : ℚ) / 10

/-- The decimal string produced by `x.toFixed(1)` (one digit after the point),
used for the `textContent` display before the `"s"` suffix is appended. -/
def fmtFixed1 (q : ℚ) : String :=
  let n := fx q
  (if n < 0 then "-" else "") ++ toString (n.natAbs / 10) ++ "." ++ toString (n.natAbs % 10)

/-- State of the DOM elements the script reads and writes:
`startRange.value` and `endRange.value` (numeric value of the two range
inputs), `startValue.textContent` and `endValue.textContent` (the display
spans), `muteToggle.dataset.active` and `audioToggle.dataset.active` (string
valued dataset flags), and whether `previewButton.classList` contains
`"active"`. -/
structure AppState where
  startRangeValue : ℚ
  endRangeValue : ℚ
  startValueText : String
  endValueText : String
  muteActive : String
  audioActive : String
  previewActive : Bool
deriving DecidableEq, Repr

/-- Numeric core of `clampRanges` (app.js lines 16-29): the four sequential
conditional assignments to the local variables `start` and `end`, in source
order. -/
def clampCore (s e : ℚ) : ℚ × ℚ :=
  let e1 := if e - s < 0.5 then min 60 (s + 0.5) else e
  let e2 := if e1 > 60 then 60 else e1
  let s1 := if s < 0 then 0 else s
  let s2 := if s1 ≥ e2 then max 0 (e2 - 0.5) else s1
  (s2, e2)

/-- The whole `clampRanges` handler (app.js lines 15-34): read both inputs,
run the numeric core, then write `start.toFixed(1)` / `end.toFixed(1)` back
into the inputs and render both display spans with an `"s"` suffix. -/
def clampRanges (st : AppState) : AppState :=
  let p := clampCore st.startRangeValue st.endRangeValue
  { st with
    startRangeValue := tofixed1 p.1
    endRangeValue := tofixed1 p.2
    startValueText := fmtFixed1 p.1 ++ "s"
    endValueText := fmtFixed1 p.2 ++ "s" }

/-- The `toggleButton` helper (app.js lines 39-42) acting on one
`dataset.active` string: `active` is the comparison with `"true"`, and the
negation is stored back as a string. -/
def toggleButton (active : String) : String :=
  if active == "true" then "false" else "true"

/-- Click handler of `muteToggle`. -/
def muteClick (st : AppState) : AppState :=
  { st with muteActive := toggleButton st.muteActive }

/-- Click handler of `audioToggle`. -/
def audioClick (st : AppState) : AppState :=
  { st with audioActive := toggleButton st.audioActive }

/-- Click handler of `previewButton` (app.js lines 47-49):
`classList.toggle("active")`. -/
def previewClick (st : AppState) : AppState :=
  { st with previewActive := !st.previewActive }

/-- The submission payload object (app.js lines 52-57): exactly the four
fields `start`, `end`, `mute`, `audioOnly`.  (`end` is a Lean keyword, hence
the field name `endv`.) -/
structure Payload where
  start : ℚ
  endv : ℚ
  mute : Bool
  audioOnly : Bool
deriving DecidableEq, Repr

/-- Payload built by the submit handler: the four current values, then the
cross-field override `if (payload.audioOnly) payload.mute = false`
(app.js lines 51-61). -/
def buildPayload (st : AppState) : Payload :=
  let p : Payload :=
    { start := st.startRangeValue
      endv := st.endRangeValue
      mute := st.muteActive == "true"
      audioOnly := st.audioActive == "true" }
  if p.audioOnly then { p with mute := false } else p

/-- What the submit handler does with the payload (app.js lines 63-68):
either `tg.sendData` followed by `tg.close()` (the Bool records that the
close was requested), or the `alert` fallback. -/
inductive SubmitOutcome where
  | delivered (payload : Payload) (closeRequested : Bool)
  | shownLocally (payload : Payload)
deriving DecidableEq, Repr

/-- Click handler of `submitButton`: builds the payload and branches on the
presence of the host object `tg` (`window.Telegram?.WebApp`).  The DOM state
is returned unchanged: the handler writes nothing back. -/
def submitClick (hostPresent : Bool) (st : AppState) : SubmitOutcome × AppState :=
  if hostPresent then (.delivered (buildPayload st) true, st)
  else (.shownLocally (buildPayload st), st)

end RangeSelector

namespace Launcher

/-- The `[[ -n "${TELEGRAM_BOT_TOKEN:-}" ]]` test of the launcher script:
`none` models an unset variable, and an empty string also fails the test. -/
def tokenPresent (token : Option String) : Bool :=
  match token with
  | none => false
  | some s => !s.isEmpty

/-- Result of running the launcher script's startup section: `exitCode` is
`some c` when the script exited early with status `c` (before reaching the
steady-state `wait`), `started` lists the child processes launched in order,
and `log` the messages echoed. -/
structure SupervisorStart where
  exitCode : Option Nat
  started : List String
  log : List String
deriving DecidableEq, Repr

/-- Startup section of the launcher script (source lines 79-101): abort with
status 1 if `uvicorn` is not on the PATH, otherwise start `api` then
`worker`, then start `bot` only when the token test passes, logging the skip
otherwise. -/
def launcher (uvicornAvailable : Bool) (token : Option String) : SupervisorStart :=
  if !uvicornAvailable then
    { exitCode := some 1
      started := []
      log := ["uvicorn not found. Did you install requirements?"] }
  else
    let base : SupervisorStart :=
      { exitCode := none
        started := ["api", "worker"]
        log := ["API запущен", "Worker запущен"] }
    if tokenPresent token then
      { base with started := base.started ++ ["bot"], log := base.log ++ ["Bot запущен"] }
    else
      { base with log := base.log ++ ["TELEGRAM_BOT_TOKEN не задан — бот не будет запущен"] }

/-- Observable events of the `cleanup` trap: a kill signal addressed to one
pid (`delivered` false when that process had already exited), the return of
the `wait` for one pid, and the supervisor's own exit. -/
inductive Event where
  | stopReq (pid : Nat) (delivered : Bool)
  | waitReturned (pid : Nat)
  | exited
deriving DecidableEq, Repr

/-- Argument list `"$API_PID" "$WORKER_PID" ${BOT_PID:+$BOT_PID}` passed to
both `kill` and `wait`: the bot slot expands to nothing when `BOT_PID` was
never set. -/
def cleanupTargets (apiPid workerPid : Nat) (botPid : Option Nat) : List Nat :=
  [apiPid, workerPid] ++ (match botPid with | none => [] | some p => [p])

/-- The `cleanup` trap (source lines 103-107) as its event trace.  `kill`
signals every listed pid even when some have already exited (`killFails`),
and its `2>/dev/null || true` discards the failure, so the following `wait`
on the same pids always runs; the script exits only after that `wait`
returns for all of them. -/
def cleanup (apiPid workerPid : Nat) (botPid : Option Nat) (killFails : Nat → Bool) :
    List Event :=
  let ts := cleanupTargets apiPid workerPid botPid
  (ts.map fun p => Event.stopReq p (!killFails p)) ++ (ts.map Event.waitReturned) ++ [Event.exited]

end Launcher

namespace RangeSelector

lemma fx_tofixed1 (q : ℚ) : fx (tofixed1 q) = fx q := by
  unfold fx tofixed1
  rw [div_mul_cancel₀ _ (by norm_num : (10 : ℚ) ≠ 0), add_comm, Int.floor_add_int]
  norm_num [fx]

lemma tofixed1_idem (q : ℚ) : tofixed1 (tofixed1 q) = tofixed1 q :=
  congrArg (fun n : ℤ => (n : ℚ) / 10) (fx_tofixed1 q)

lemma fmtFixed1_tofixed1 (q : ℚ) : fmtFixed1 (tofixed1 q) = fmtFixed1 q :=
  congrArg
    (fun n : ℤ =>
      (if n < 0 then "-" else "") ++ toString (n.natAbs / 10) ++ "." ++ toString (n.natAbs % 10))
    (fx_tofixed1 q)

lemma tofixed1_nonneg (q : ℚ) (h : 0 ≤ q) : 0 ≤ tofixed1 q := by
  have hfl : (0 : ℤ) ≤ fx q := by
    have : (0 : ℚ) ≤ q * 10 + 1/2 := by linarith
    exact Int.floor_nonneg.mpr this
  unfold tofixed1
  positivity

lemma tofixed1_le_60 (q : ℚ) (h : q ≤ 60) : tofixed1 q ≤ 60 := by
  have hfl : fx q ≤ 600 := by
    have h1 : q * 10 + 1/2 ≤ 600 + 1/2 := by linarith
    have h2 : fx q ≤ ⌊(600 : ℚ) + 1/2⌋ := Int.floor_le_floor h1
    have h3 : ⌊(600 : ℚ) + 1/2⌋ = 600 := by
      rw [add_comm]
      norm_num [Int.floor_add_int]
    omega
  have : (fx q : ℚ) ≤ 600 := by exact_mod_cast hfl
  unfold tofixed1
  linarith

lemma tofixed1_width (s e : ℚ) (h : s + 1/2 ≤ e) : tofixed1 s + 1/2 ≤ tofixed1 e := by
  have hfl : fx s + 5 ≤ fx e := by
    have h1 : s * 10 + 1/2 + (5 : ℤ) ≤ e * 10 + 1/2 := by push_cast; linarith
    have h2 : ⌊s * 10 + 1/2 + ((5 : ℤ) : ℚ)⌋ ≤ fx e := Int.floor_le_floor (by push_cast at h1 ⊢; linarith)
    rw [Int.floor_add_int] at h2
    exact h2
  have : (fx s : ℚ) + 5 ≤ (fx e : ℚ) := by exact_mod_cast hfl
  unfold tofixed1
  linarith

lemma clampCore_valid (a b : ℚ) (h0 : 0 ≤ a) (h1 : a ≤ 59.5) :
    0 ≤ (clampCore a b).1 ∧ (clampCore a b).1 + 1/2 ≤ (clampCore a b).2 ∧
      (clampCore a b).2 ≤ 60 := by
  simp only [clampCore, min_def, max_def]
  split_ifs <;> constructor <;> try constructor
  all_goals linarith

lemma clampCore_fixed (s e : ℚ) (h0 : 0 ≤ s) (hw : s + 1/2 ≤ e) (h60 : e ≤ 60) :
    clampCore s e = (s, e) := by
  simp only [clampCore, min_def, max_def]
  split_ifs <;> first | rfl | (exfalso; linarith)

lemma buildPayload_start (st : AppState) : (buildPayload st).start = st.startRangeValue := by
  simp only [buildPayload]
  split_ifs <;> rfl

lemma buildPayload_endv (st : AppState) : (buildPayload st).endv = st.endRangeValue := by
  simp only [buildPayload]
  split_ifs <;> rfl

end RangeSelector

namespace RangeSelector

/-- C1, counterexample: at the concrete input `start = -10`, `end = -1` the
result of the numeric normalization is `(0, -1)`, which violates
`start' < end'` (and the other invariants), refuting the claim that the
invariants hold for every pair of real inputs. -/
theorem clampCore_invariant_fails :
    ¬(0 ≤ (clampCore (-10) (-1)).1 ∧ (clampCore (-10) (-1)).1 < (clampCore (-10) (-1)).2 ∧
      (clampCore (-10) (-1)).2 ≤ 60 ∧ 1/2 ≤ (clampCore (-10) (-1)).2 - (clampCore (-10) (-1)).1) := by
  norm_num [clampCore, min_def, max_def]

/-- C1, amended: `clampRanges` is a total function (it is a Lean `def`, so it
never raises), and whenever the proposed `start` lies in `[0, 59.5]` — for
every proposed `end`, including negative, equal, reversed and far-beyond-60
values — the result satisfies `0 ≤ start' < end' ≤ 60` and
`end' - start' ≥ 0.5`.  Outside that `start` domain the invariant can fail,
as the counterexample shows. -/
theorem clampCore_invariant (a b : ℚ) (h0 : 0 ≤ a) (h1 : a ≤ 59.5) :
    0 ≤ (clampCore a b).1 ∧ (clampCore a b).1 < (clampCore a b).2 ∧
      (clampCore a b).2 ≤ 60 ∧ 1/2 ≤ (clampCore a b).2 - (clampCore a b).1 := by
  obtain ⟨v0, v1, v2⟩ := clampCore_valid a b h0 h1
  exact ⟨v0, by linarith, v2, by linarith⟩

/-- C1, witness: the amended invariant theorem applied at the concrete
in-domain input `(10, 10.2)`. -/
theorem clampCore_invariant_witness :
    (0 : ℚ) ≤ 10 ∧ (10 : ℚ) ≤ 59.5 ∧
      (0 ≤ (clampCore 10 10.2).1 ∧ (clampCore 10 10.2).1 < (clampCore 10 10.2).2 ∧
        (clampCore 10 10.2).2 ≤ 60 ∧ 1/2 ≤ (clampCore 10 10.2).2 - (clampCore 10 10.2).1) :=
  ⟨by norm_num, by norm_num, clampCore_invariant 10 10.2 (by norm_num) (by norm_num)⟩

/-- C2, counterexample: starting from inputs `start = -10`, `end = -1`, one
`clampRanges` call stores `(0, -1)` but a second call, reading those stored
values back, produces `(0, 0.5)`: applying normalize to the output of
normalize does not return the same output, refuting idempotence on arbitrary
real inputs. -/
theorem clampRanges_not_idempotent :
    clampRanges (clampRanges ⟨-10, -1, "", "", "false", "false", false⟩) ≠
      clampRanges ⟨-10, -1, "", "", "false", "false", false⟩ := by
  intro h
  have h2 := congrArg AppState.endRangeValue h
  norm_num [clampRanges, clampCore, tofixed1, fx, min_def, max_def] at h2

/-- C2, amended: whenever the proposed `start` lies in `[0, 59.5]` (for every
proposed `end`), `clampRanges` is idempotent, including the round trip
through the stored one-decimal formatted values that the second application
reads: the whole DOM state, stored values and rendered texts alike, is
unchanged by a second application. -/
theorem clampRanges_idempotent (st : AppState) (h0 : 0 ≤ st.startRangeValue)
    (h1 : st.startRangeValue ≤ 59.5) :
    clampRanges (clampRanges st) = clampRanges st := by
  obtain ⟨v0, v1, v2⟩ := clampCore_valid st.startRangeValue st.endRangeValue h0 h1
  set p := clampCore st.startRangeValue st.endRangeValue with hp
  have hcore : clampCore (tofixed1 p.1) (tofixed1 p.2) = (tofixed1 p.1, tofixed1 p.2) :=
    clampCore_fixed _ _ (tofixed1_nonneg _ v0) (tofixed1_width _ _ v1) (tofixed1_le_60 _ v2)
  show clampRanges
      { st with
        startRangeValue := tofixed1 p.1
        endRangeValue := tofixed1 p.2
        startValueText := fmtFixed1 p.1 ++ "s"
        endValueText := fmtFixed1 p.2 ++ "s" } = _
  simp only [clampRanges, hcore, tofixed1_idem, fmtFixed1_tofixed1]

/-- C2, witness: the amended idempotence theorem applied at the concrete
state with proposed bounds `(10, 10.2)`. -/
theorem clampRanges_idempotent_witness :
    (0 : ℚ) ≤ (AppState.mk 10 10.2 "" "" "false" "false" false).startRangeValue ∧
      (AppState.mk 10 10.2 "" "" "false" "false" false).startRangeValue ≤ 59.5 ∧
      clampRanges (clampRanges (AppState.mk 10 10.2 "" "" "false" "false" false)) =
        clampRanges (AppState.mk 10 10.2 "" "" "false" "false" false) :=
  ⟨by norm_num, by norm_num,
    clampRanges_idempotent (AppState.mk 10 10.2 "" "" "false" "false" false)
      (by norm_num) (by norm_num)⟩

/-- C3, counterexample: for the input `start = 59.8`, `end = 61` the code
yields final `end = 60` but final `start = 59.8`, not `59.5`: no step forces
the start bound down after the upper clamp, refuting the claimed result. -/
theorem clampCore_upper_clamp_claim_fails :
    ¬((clampCore 59.8 61).2 = 60 ∧ (clampCore 59.8 61).1 = 59.5) := by
  norm_num [clampCore, min_def, max_def]

/-- C3, amended: `normalize(59.8, 61)` returns final `end = 60` and final
`start = 59.8` — the start bound is left unchanged, so the resulting width
is `0.2`, below the `0.5` minimum; the stored values after the call are
`59.8` and `60` as well. -/
theorem clampCore_upper_clamp_actual :
    clampCore 59.8 61 = (59.8, 60) ∧
      (clampRanges ⟨59.8, 61, "", "", "false", "false", false⟩).startRangeValue = 59.8 ∧
      (clampRanges ⟨59.8, 61, "", "", "false", "false", false⟩).endRangeValue = 60 ∧
      ¬(1/2 ≤ (clampCore 59.8 61).2 - (clampCore 59.8 61).1) := by
  refine ⟨?_, ?_, ?_, ?_⟩ <;>
    norm_num [clampRanges, clampCore, tofixed1, fx, min_def, max_def]

/-- C4, counterexample: with proposed bounds `(10.25, 60)` the normalized
start value is `10.25` itself, but the value stored back into the input (and
hence read at submission) is the one-decimal rounding `10.3`: the stored
bounds do not retain full numeric precision. -/
theorem clampRanges_precision_lost :
    (clampCore 10.25 60).1 = 10.25 ∧
      (clampRanges ⟨10.25, 60, "", "", "false", "false", false⟩).startRangeValue = 10.3 ∧
      (buildPayload (clampRanges ⟨10.25, 60, "", "", "false", "false", false⟩)).start = 10.3 ∧
      (10.3 : ℚ) ≠ 10.25 := by
  refine ⟨?_, ?_, ?_, ?_⟩
  · norm_num [clampCore, min_def, max_def]
  · norm_num [clampRanges, clampCore, tofixed1, fx, min_def, max_def]
  · rw [buildPayload_start]
    norm_num [clampRanges, clampCore, tofixed1, fx, min_def, max_def]
  · norm_num

/-- C4, amended: after every `clampRanges` call the stored bounds are the
one-decimal (`toFixed(1)`) roundings of the normalized values, not the
unrounded values; the display texts show the same rounded values with the
`"s"` suffix; and the values read at submission equal these stored rounded
values. -/
theorem clampRanges_stores_rounded (st : AppState) :
    (clampRanges st).startRangeValue =
        tofixed1 (clampCore st.startRangeValue st.endRangeValue).1 ∧
      (clampRanges st).endRangeValue =
        tofixed1 (clampCore st.startRangeValue st.endRangeValue).2 ∧
      (clampRanges st).startValueText =
        fmtFixed1 (clampCore st.startRangeValue st.endRangeValue).1 ++ "s" ∧
      (clampRanges st).endValueText =
        fmtFixed1 (clampCore st.startRangeValue st.endRangeValue).2 ++ "s" ∧
      (buildPayload (clampRanges st)).start =
        tofixed1 (clampCore st.startRangeValue st.endRangeValue).1 ∧
      (buildPayload (clampRanges st)).endv =
        tofixed1 (clampCore st.startRangeValue st.endRangeValue).2 :=
  ⟨rfl, rfl, rfl, rfl, buildPayload_start _, buildPayload_endv _⟩

/-- C5: the cross-field rule lives only in the submit handler: the outgoing
payload's `audioOnly` mirrors the toggle, the outgoing `mute` is forced to
false when `audioOnly` is set and equals the mute toggle state otherwise,
and building the payload leaves the whole stored state untouched. -/
theorem buildPayload_cross_field (st : AppState) (host : Bool) :
    (buildPayload st).audioOnly = (st.audioActive == "true") ∧
      (buildPayload st).mute =
        (if st.audioActive == "true" then false else st.muteActive == "true") ∧
      (submitClick host st).2 = st := by
  refine ⟨?_, ?_, ?_⟩
  · simp only [buildPayload]
    split_ifs <;> simp_all
  · simp only [buildPayload]
    split_ifs <;> simp_all
  · cases host <;> simp [submitClick]

end RangeSelector

namespace Launcher

lemma cleanup_countP_stopReq (a w : Nat) (b : Option Nat) (kf : Nat → Bool) (q : Nat) :
    (cleanup a w b kf).countP (fun ev => match ev with
      | Event.stopReq r _ => r == q | _ => false) = (cleanupTargets a w b).count q := by
  simp [cleanup, List.countP_append, List.countP_map, Function.comp_def, List.count]

/-- C6: on the shutdown trigger, a stop request goes to exactly the pids that
were created (the bot slot contributes nothing when it was never set), each
exactly once; the wait covers exactly the same pids; and the supervisor's
exit is the last event of the trace — all of this independent of which
individual kills fail. -/
theorem cleanup_contract (a w : Nat) (b : Option Nat) (kf : Nat → Bool)
    (hnd : (cleanupTargets a w b).Nodup) :
    ((cleanup a w b kf).filterMap (fun ev => match ev with
        | Event.stopReq p _ => some p | _ => none) = cleanupTargets a w b) ∧
      (∀ p ∈ cleanupTargets a w b,
        (cleanup a w b kf).countP (fun ev => match ev with
          | Event.stopReq q _ => q == p | _ => false) = 1) ∧
      ((cleanup a w b kf).filterMap (fun ev => match ev with
        | Event.waitReturned p => some p | _ => none) = cleanupTargets a w b) ∧
      (cleanup a w b kf).getLast? = some Event.exited := by
  refine ⟨?_, ?_, ?_, ?_⟩
  · rcases b with _ | p <;> simp [cleanup, cleanupTargets, List.filterMap]
  · intro q hq
    rw [cleanup_countP_stopReq]
    exact List.count_eq_one_of_mem hnd hq
  · rcases b with _ | p <;> simp [cleanup, cleanupTargets, List.filterMap]
  · rcases b with _ | p <;> rfl

/-- C6, witness: the shutdown contract applied at concrete distinct pids
1, 2 and a started bot with pid 3, with every kill failing. -/
theorem cleanup_contract_witness :
    (cleanupTargets 1 2 (some 3)).Nodup ∧
      (((cleanup 1 2 (some 3) (fun _ => true)).filterMap (fun ev => match ev with
          | Event.stopReq p _ => some p | _ => none) = cleanupTargets 1 2 (some 3)) ∧
        (∀ p ∈ cleanupTargets 1 2 (some 3),
          (cleanup 1 2 (some 3) (fun _ => true)).countP (fun ev => match ev with
            | Event.stopReq q _ => q == p | _ => false) = 1) ∧
        ((cleanup 1 2 (some 3) (fun _ => true)).filterMap (fun ev => match ev with
          | Event.waitReturned p => some p | _ => none) = cleanupTargets 1 2 (some 3)) ∧
        (cleanup 1 2 (some 3) (fun _ => true)).getLast? = some Event.exited) :=
  ⟨by decide, cleanup_contract 1 2 (some 3) (fun _ => true) (by decide)⟩

/-- C7: with the API prerequisite available, the launcher reaches the running
state (no early exit) for every environment; the bot is started exactly when
the token is present and non-empty, so the started set is
`[api, worker, bot]` (three processes) in that case and `[api, worker]`
(two) otherwise; and the skip is logged when the token is absent. -/
theorem launcher_conditional_start (token : Option String) :
    (launcher true token).exitCode = none ∧
      ((launcher true token).started =
        if tokenPresent token then ["api", "worker", "bot"] else ["api", "worker"]) ∧
      (("bot" ∈ (launcher true token).started) ↔ tokenPresent token = true) ∧
      (tokenPresent token = false →
        "TELEGRAM_BOT_TOKEN не задан — бот не будет запущен" ∈ (launcher true token).log) := by
  cases htk : tokenPresent token <;> simp [launcher, htk]

/-- C7, witness: the conditional-start theorem applied at the concrete
environments with the token unset and with a non-empty token. -/
theorem launcher_conditional_start_witness :
    (launcher true none).started = ["api", "worker"] ∧
      "TELEGRAM_BOT_TOKEN не задан — бот не будет запущен" ∈ (launcher true none).log ∧
      (launcher true (some "t0k3n")).started = ["api", "worker", "bot"] := by
  have h1 := launcher_conditional_start none
  have h2 := launcher_conditional_start (some "t0k3n")
  refine ⟨?_, h1.2.2.2 rfl, ?_⟩
  · simpa [tokenPresent] using h1.2.1
  · simpa [tokenPresent] using h2.2.1

/-- C8: when `uvicorn` is missing the launcher exits with status 1 — a
non-zero status — before starting any child process, for every environment. -/
theorem launcher_fails_fast (token : Option String) :
    (launcher false token).exitCode = some 1 ∧ (launcher false token).started = [] ∧
      (launcher false token).exitCode ≠ some 0 := by
  simp [launcher]

end Launcher

namespace RangeSelector

/-- C9: submission is total in the host's presence: with a host the payload
is delivered and the panel close is requested; without one the same payload
is surfaced locally (the `alert` fallback) and nothing fails — the state is
untouched in both modes. -/
theorem submit_host_fallback (st : AppState) :
    (submitClick true st).1 = SubmitOutcome.delivered (buildPayload st) true ∧
      (submitClick false st).1 = SubmitOutcome.shownLocally (buildPayload st) ∧
      (submitClick false st).2 = st ∧ (submitClick true st).2 = st := by
  simp [submitClick]

/-- C10: any number of preview clicks changes only the preview button's own
class flag: every other state component is untouched, and the submission
outcome (whose payload consists of exactly the four fields of `Payload`:
`start`, `end`, `mute`, `audioOnly`) is identical before and after. -/
theorem preview_frame_effect (st : AppState) (n : ℕ) :
    buildPayload (previewClick^[n] st) = buildPayload st ∧
      (previewClick st).startRangeValue = st.startRangeValue ∧
      (previewClick st).endRangeValue = st.endRangeValue ∧
      (previewClick st).muteActive = st.muteActive ∧
      (previewClick st).audioActive = st.audioActive ∧
      (previewClick st).startValueText = st.startValueText ∧
      (previewClick st).endValueText = st.endValueText ∧
      (∀ host : Bool, (submitClick host (previewClick^[n] st)).1 = (submitClick host st).1) := by
  have hiter : buildPayload (previewClick^[n] st) = buildPayload st := by
    induction n with
    | zero => rfl
    | succ m ih => rw [Function.iterate_succ_apply']; exact ih
  exact ⟨hiter, rfl, rfl, rfl, rfl, rfl, rfl, fun host => by
    cases host <;> simp [submitClick, hiter]⟩

end RangeSelector
